import Mathlib

/-!
Shallow embedding of the VerbalExpressions builder
(`src/src/verex/mod.rs` and `src/src/lib.rs`).

Rust `String`s are embedded as `List Char`; each `&mut self` chaining
method becomes a function `Verex → Verex` on an explicit state record.
The external regex engine (`regex::Regex`) is out of scope of the core
(spec section 1); `compile` is therefore parameterised over the
collaborator `engine : List Char → Except e r` and merely forwards the
effective source string to it, exactly as `Regex::new(self.source)` does.
-/

/-- Embeds the `Modifiers` bitflags of `verex/mod.rs` (two independent
flags, `MULTI_LINE = 0b01` and `CASE_INSENSITIVE = 0b10`) as a record of
two booleans. -/
structure Modifiers where
  multi_line : Bool
  case_insensitive : Bool
deriving DecidableEq

/-- `Modifiers::new`, i.e. `Modifiers::empty()`: no flag set. -/
def Modifiers.new : Modifiers := { multi_line := false, case_insensitive := false }

/-- The fourteen characters matched (in this order) by the regexes on the
left-hand side of `ESCAPE_PAIRS` in `verex/mod.rs`; every pair's
replacement is a backslash followed by the matched character. -/
def ESCAPE_CHARS : List Char :=
  ['\\', '(', ')', '[', ']', '{', '}', '.', '+', '*', '?', '^', '$', '|']

/-- One `regex.replace_all(result, pair.1)` pass of `escape`: every
occurrence of the single character `c` is replaced by a backslash
followed by that character, in one left-to-right sweep that never
rescans the replacement text (the semantics of `replace_all` for a
single-character pattern). -/
def replaceAllChar (c : Char) : List Char → List Char
  | [] => []
  | x :: xs =>
      if x = c then '\\' :: c :: replaceAllChar c xs
      else x :: replaceAllChar c xs

/-- The `for pair in ESCAPE_PAIRS` loop body of `escape`, folded over a
list of pass characters. -/
def applyPasses (cs : List Char) (s : List Char) : List Char :=
  cs.foldl (fun acc c => replaceAllChar c acc) s

/-- `escape` of `verex/mod.rs`: apply the fourteen `ESCAPE_PAIRS`
substitutions in order (backslash first) to the input string. -/
def escape (s : List Char) : List Char :=
  applyPasses ESCAPE_CHARS s

/-- The `Verex` struct: the accumulated builder string, the modifier
flags and the derived source string. -/
structure Verex where
  string : List Char
  modifiers : Modifiers
  source : List Char
deriving DecidableEq

/-- The `Expression` enum: a string slice, another `Verex` (contributing
its `source()`), or a compiled `Regex` (contributing its `as_str()`,
embedded as that text). -/
inductive Expression where
  | String : List Char → Expression
  | Verex : Verex → Expression
  | Regex : List Char → Expression

/-- `Verex::add`: push `value` onto the builder string. -/
def Verex.add (v : Verex) (value : List Char) : Verex :=
  { v with string := v.string ++ value }

/-- `Verex::update_source_with_modifiers`: rebuild `source` as `(?`,
then `i` if `CASE_INSENSITIVE` is set, then `m` if `MULTI_LINE` is set,
then `:`, the builder string and `)`. -/
def Verex.update_source_with_modifiers (v : Verex) : Verex :=
  { v with source :=
      ['(', '?'] ++
      (if v.modifiers.case_insensitive then ['i'] else []) ++
      (if v.modifiers.multi_line then ['m'] else []) ++
      [':'] ++ v.string ++ [')'] }

/-- `Verex::from_string`: seed the builder string verbatim, start with
empty modifiers, and derive the source. -/
def Verex.from_string (string : List Char) : Verex :=
  Verex.update_source_with_modifiers
    { string := string, modifiers := Modifiers.new, source := [] }

/-- `Verex::new`: `from_string` of the empty string. -/
def Verex.new : Verex := Verex.from_string []

/-- `Verex::from_str` (the inherent method): delegates to `from_string`. -/
def Verex.from_str (string : List Char) : Verex := Verex.from_string string

/-- `Verex::compile` (and the convenience alias `regex`): hand the
current source string to the external regex-compiling collaborator and
return its result unchanged. -/
def Verex.compile {e r : Type} (engine : List Char → Except e r) (v : Verex) :
    Except e r :=
  engine v.source

/-- `Verex::regex`: alias of `compile`. -/
def Verex.regex {e r : Type} (engine : List Char → Except e r) (v : Verex) :
    Except e r :=
  v.compile engine

/-- `Verex::raw`: returns `source()`. -/
def Verex.raw (v : Verex) : List Char := v.source

/-- `Verex::value`: returns `source()`. -/
def Verex.value (v : Verex) : List Char := v.source

/-- `Verex::open_class`. -/
def Verex.open_class (v : Verex) : Verex := v.add ['[']

/-- `Verex::close_class`. -/
def Verex.close_class (v : Verex) : Verex := v.add [']']

/-- `Verex::open_group`. -/
def Verex.open_group (v : Verex) : Verex := v.add ['(', '?', ':']

/-- `Verex::open_capturing_group`. -/
def Verex.open_capturing_group (v : Verex) : Verex := v.add ['(']

/-- `Verex::close_group`. -/
def Verex.close_group (v : Verex) : Verex := v.add [')']

/-- `Verex::open_quantifier`. -/
def Verex.open_quantifier (v : Verex) : Verex := v.add ['{']

/-- `Verex::close_quantifier`. -/
def Verex.close_quantifier (v : Verex) : Verex := v.add ['}']

/-- `Verex::any`: a character class of the escaped characters. -/
def Verex.any (v : Verex) (chars : List Char) : Verex :=
  (((v.open_class).add (escape chars)).close_class).update_source_with_modifiers

/-- `Verex::any_of`: alias of `any`. -/
def Verex.any_of (v : Verex) (chars : List Char) : Verex := v.any chars

/-- `Verex::anything`: appends `(.*)`. -/
def Verex.anything (v : Verex) : Verex :=
  (v.add ['(', '.', '*', ')']).update_source_with_modifiers

/-- `Verex::anything_but`: a non-capturing group holding a negated class
of the escaped characters, starred. -/
def Verex.anything_but (v : Verex) (chars : List Char) : Verex :=
  (((((((v.open_group).open_class).add ['^']).add
      (escape chars)).close_class).add ['*']).close_group).update_source_with_modifiers

/-- `Verex::capture_value`: wrap `value` in a capturing group. -/
def Verex.capture_value (v : Verex) (value : List Char) : Verex :=
  (((v.open_capturing_group).add value).close_group).update_source_with_modifiers

/-- `Verex::capture`: `capture_value` of the escaped input. -/
def Verex.capture (v : Verex) (value : List Char) : Verex :=
  v.capture_value (escape value)

/-- `Verex::capture_expr`: `capture_value` of the raw expression text. -/
def Verex.capture_expr (v : Verex) (expr : Expression) : Verex :=
  match expr with
  | .String x => v.capture_value x
  | .Verex x => v.capture_value x.source
  | .Regex x => v.capture_value x

/-- `Verex::digit`: appends the two characters backslash and `d`. -/
def Verex.digit (v : Verex) : Verex :=
  (v.add ['\\', 'd']).update_source_with_modifiers

/-- `Verex::end_of_line`: appends the dollar anchor. -/
def Verex.end_of_line (v : Verex) : Verex :=
  (v.add ['$']).update_source_with_modifiers

/-- `Verex::find_value`: wrap `value` in a non-capturing group. -/
def Verex.find_value (v : Verex) (value : List Char) : Verex :=
  (((v.open_group).add value).close_group).update_source_with_modifiers

/-- `Verex::find`: `find_value` of the escaped input. -/
def Verex.find (v : Verex) (value : List Char) : Verex :=
  v.find_value (escape value)

/-- `Verex::find_expr`: `find_value` of the raw expression text. -/
def Verex.find_expr (v : Verex) (expr : Expression) : Verex :=
  match expr with
  | .String x => v.find_value x
  | .Verex x => v.find_value x.source
  | .Regex x => v.find_value x

/-- `Verex::or`: appends the alternation bar. -/
def Verex.or (v : Verex) : Verex :=
  (v.add ['|']).update_source_with_modifiers

/-- `Verex::or_find`: `or` then `find`. -/
def Verex.or_find (v : Verex) (value : List Char) : Verex :=
  (v.or).find value

/-- `Verex::or_find_expr`: `or` then `find_expr`. -/
def Verex.or_find_expr (v : Verex) (expr : Expression) : Verex :=
  (v.or).find_expr expr

/-- `Verex::line_break`: open a group, add the raw two-character text
backslash-`n`, `or_find_expr` the raw four-character text
backslash-`r`-backslash-`n`, close the group. -/
def Verex.line_break (v : Verex) : Verex :=
  ((((v.open_group).add ['\\', 'n']).or_find_expr
      (Expression.String ['\\', 'r', '\\', 'n'])).close_group).update_source_with_modifiers

/-- `Verex::br`: alias of `line_break`. -/
def Verex.br (v : Verex) : Verex := v.line_break

/-- `Verex::maybe_value`: wrap `value` in a non-capturing group followed
by a question mark. -/
def Verex.maybe_value (v : Verex) (value : List Char) : Verex :=
  ((((v.open_group).add value).close_group).add ['?']).update_source_with_modifiers

/-- `Verex::maybe`: `maybe_value` of the escaped input. -/
def Verex.maybe (v : Verex) (value : List Char) : Verex :=
  v.maybe_value (escape value)

/-- `Verex::maybe_expr`: `maybe_value` of the raw expression text. -/
def Verex.maybe_expr (v : Verex) (expr : Expression) : Verex :=
  match expr with
  | .String x => v.maybe_value x
  | .Verex x => v.maybe_value x.source
  | .Regex x => v.maybe_value x

/-- `Verex::range`: build `[` then `from`-dash-`to` for each pair in
input order then `]`, and append it. -/
def Verex.range (v : Verex) (range : List (Char × Char)) : Verex :=
  (v.add ((range.foldl (fun acc t => acc ++ [t.1, '-', t.2]) ['['])
      ++ [']'])).update_source_with_modifiers

/-- `Verex::repeat_n`: a quantifier holding the decimal digits of `n`. -/
def Verex.repeat_n (v : Verex) (n : Nat) : Verex :=
  (((v.open_quantifier).add (Nat.repr n).data).close_quantifier).update_source_with_modifiers

/-- `Verex::repeat_n_to_m`: a quantifier holding `n`, a comma and `m`. -/
def Verex.repeat_n_to_m (v : Verex) (n m : Nat) : Verex :=
  (((((v.open_quantifier).add (Nat.repr n).data).add [',']).add
      (Nat.repr m).data).close_quantifier).update_source_with_modifiers

/-- `Verex::repeat_once_or_more`: appends `+`. -/
def Verex.repeat_once_or_more (v : Verex) : Verex :=
  (v.add ['+']).update_source_with_modifiers

/-- `Verex::repeat_previous`: alias of `repeat_n`. -/
def Verex.repeat_previous (v : Verex) (n : Nat) : Verex := v.repeat_n n

/-- `Verex::repeat_zero_or_more`: appends `*`. -/
def Verex.repeat_zero_or_more (v : Verex) : Verex :=
  (v.add ['*']).update_source_with_modifiers

/-- `Verex::search_one_line`: `enable = true` removes the `MULTI_LINE`
flag, `enable = false` inserts it. -/
def Verex.search_one_line (v : Verex) (enable : Bool) : Verex :=
  (if enable then { v with modifiers := { v.modifiers with multi_line := false } }
   else { v with modifiers := { v.modifiers with multi_line := true } }).update_source_with_modifiers

/-- `Verex::something`: appends `(.+)`. -/
def Verex.something (v : Verex) : Verex :=
  (v.add ['(', '.', '+', ')']).update_source_with_modifiers

/-- `Verex::something_but`: a non-capturing group holding a negated
class of the escaped characters, plussed. -/
def Verex.something_but (v : Verex) (chars : List Char) : Verex :=
  (((((((v.open_group).open_class).add ['^']).add
      (escape chars)).close_class).add ['+']).close_group).update_source_with_modifiers

/-- `Verex::start_of_line`: appends the caret anchor. -/
def Verex.start_of_line (v : Verex) : Verex :=
  (v.add ['^']).update_source_with_modifiers

/-- `Verex::tab`: appends the two characters backslash and `t`. -/
def Verex.tab (v : Verex) : Verex :=
  (v.add ['\\', 't']).update_source_with_modifiers

/-- `Verex::then`: alias of `find` (`then` is a Lean keyword, hence the
underscore). -/
def Verex.then_ (v : Verex) (value : List Char) : Verex := v.find value

/-- `Verex::with_any_case`: `enable = true` inserts the
`CASE_INSENSITIVE` flag, `enable = false` removes it. -/
def Verex.with_any_case (v : Verex) (enable : Bool) : Verex :=
  (if enable then { v with modifiers := { v.modifiers with case_insensitive := true } }
   else { v with modifiers := { v.modifiers with case_insensitive := false } }).update_source_with_modifiers

/-- `Verex::word`: `find_expr` of the raw three-character text
backslash-`w`-`+`. -/
def Verex.word (v : Verex) : Verex :=
  v.find_expr (Expression.String ['\\', 'w', '+'])

/-- The `Void` error type of the `FromStr` implementation: an empty
enum, so the implementation can never return an error. -/
inductive Void

/-- The `FromStr` trait implementation for `Verex`:
`Ok(Verex::from_str(s))`. -/
def from_str_impl (s : List Char) : Except Void Verex :=
  Except.ok (Verex.from_str s)

/-- The `PartialEq` implementation for `Verex`: equality of the builder
strings only. -/
def Verex.eq (v other : Verex) : Bool :=
  v.string == other.string

/-- The public chaining operations of `Verex` (every `pub fn` returning
`&mut Verex`), as a syntax of operations so invariants can be stated
over all of them at once. -/
inductive Op where
  | any (chars : List Char)
  | any_of (chars : List Char)
  | anything
  | anything_but (chars : List Char)
  | br
  | capture (value : List Char)
  | capture_expr (expr : Expression)
  | digit
  | end_of_line
  | find (value : List Char)
  | find_expr (expr : Expression)
  | line_break
  | maybe (value : List Char)
  | maybe_expr (expr : Expression)
  | or
  | or_find (value : List Char)
  | or_find_expr (expr : Expression)
  | range (r : List (Char × Char))
  | repeat_n (n : Nat)
  | repeat_n_to_m (n m : Nat)
  | repeat_once_or_more
  | repeat_previous (n : Nat)
  | repeat_zero_or_more
  | search_one_line (enable : Bool)
  | something
  | something_but (chars : List Char)
  | start_of_line
  | tab
  | then_ (value : List Char)
  | with_any_case (enable : Bool)
  | word

/-- Interpret a public chaining operation as the corresponding method. -/
def Op.run : Op → Verex → Verex
  | .any chars, v => v.any chars
  | .any_of chars, v => v.any_of chars
  | .anything, v => v.anything
  | .anything_but chars, v => v.anything_but chars
  | .br, v => v.br
  | .capture value, v => v.capture value
  | .capture_expr expr, v => v.capture_expr expr
  | .digit, v => v.digit
  | .end_of_line, v => v.end_of_line
  | .find value, v => v.find value
  | .find_expr expr, v => v.find_expr expr
  | .line_break, v => v.line_break
  | .maybe value, v => v.maybe value
  | .maybe_expr expr, v => v.maybe_expr expr
  | .or, v => v.or
  | .or_find value, v => v.or_find value
  | .or_find_expr expr, v => v.or_find_expr expr
  | .range r, v => v.range r
  | .repeat_n n, v => v.repeat_n n
  | .repeat_n_to_m n m, v => v.repeat_n_to_m n m
  | .repeat_once_or_more, v => v.repeat_once_or_more
  | .repeat_previous n, v => v.repeat_previous n
  | .repeat_zero_or_more, v => v.repeat_zero_or_more
  | .search_one_line enable, v => v.search_one_line enable
  | .something, v => v.something
  | .something_but chars, v => v.something_but chars
  | .start_of_line, v => v.start_of_line
  | .tab, v => v.tab
  | .then_ value, v => v.then_ value
  | .with_any_case enable, v => v.with_any_case enable
  | .word, v => v.word

/-- The flag letters of the spec formula: `i` if `CASE_INSENSITIVE` is
set, then `m` if `MULTI_LINE` is set, in that fixed order. -/
def flag_chars (m : Modifiers) : List Char :=
  (if m.case_insensitive then ['i'] else []) ++ (if m.multi_line then ['m'] else [])

/-- The effective-source formula stated by the spec: `(?` + flag letters
+ `:` + fragment + `)`. -/
def effective_source_formula (fragment : List Char) (m : Modifiers) : List Char :=
  ['(', '?'] ++ flag_chars m ++ [':'] ++ fragment ++ [')']

/-- `replaceAllChar` distributes over list append. -/
lemma replaceAllChar_append (c : Char) (xs ys : List Char) :
    replaceAllChar c (xs ++ ys) = replaceAllChar c xs ++ replaceAllChar c ys := by
  induction xs with
  | nil => rfl
  | cons x xs ih =>
    simp only [List.cons_append, replaceAllChar]
    split <;> simp [ih]

/-- `applyPasses` distributes over list append. -/
lemma applyPasses_append (cs : List Char) (xs ys : List Char) :
    applyPasses cs (xs ++ ys) = applyPasses cs xs ++ applyPasses cs ys := by
  induction cs generalizing xs ys with
  | nil => rfl
  | cons c cs ih =>
    simp only [applyPasses, List.foldl_cons] at ih ⊢
    rw [replaceAllChar_append, ih]

/-- Running the fourteen escape passes over a single character prepends
a backslash exactly when that character is one of the fourteen
metacharacters. -/
lemma applyPasses_singleton (x : Char) :
    applyPasses ESCAPE_CHARS [x] = if x ∈ ESCAPE_CHARS then ['\\', x] else [x] := by
  by_cases h1 : x = '\\'
  · subst h1; decide
  by_cases h2 : x = '('
  · subst h2; decide
  by_cases h3 : x = ')'
  · subst h3; decide
  by_cases h4 : x = '['
  · subst h4; decide
  by_cases h5 : x = ']'
  · subst h5; decide
  by_cases h6 : x = '{'
  · subst h6; decide
  by_cases h7 : x = '}'
  · subst h7; decide
  by_cases h8 : x = '.'
  · subst h8; decide
  by_cases h9 : x = '+'
  · subst h9; decide
  by_cases h10 : x = '*'
  · subst h10; decide
  by_cases h11 : x = '?'
  · subst h11; decide
  by_cases h12 : x = '^'
  · subst h12; decide
  by_cases h13 : x = '$'
  · subst h13; decide
  by_cases h14 : x = '|'
  · subst h14; decide
  have hmem : x ∉ ESCAPE_CHARS := by
    simp [ESCAPE_CHARS, h1, h2, h3, h4, h5, h6, h7, h8, h9, h10, h11, h12, h13, h14]
  simp [applyPasses, ESCAPE_CHARS, replaceAllChar,
    h1, h2, h3, h4, h5, h6, h7, h8, h9, h10, h11, h12, h13, h14, hmem]

/-- `escape` on a cons: the head is escaped on its own, independently of
the tail. -/
lemma escape_cons (x : Char) (xs : List Char) :
    escape (x :: xs) = (if x ∈ ESCAPE_CHARS then ['\\', x] else [x]) ++ escape xs := by
  have h : x :: xs = [x] ++ xs := rfl
  rw [escape, h, applyPasses_append, applyPasses_singleton]
  rfl

/-- C1: after every public chaining operation (and on freshly seeded
builders), the effective source string returned by `source()` — and by
its aliases `raw()` and `value()` — equals `(?` + the flag letters (`i`
if `CASE_INSENSITIVE` is set, then `m` if `MULTI_LINE` is set, in that
fixed order) + `:` + the accumulated builder string + `)`. -/
theorem c1_effective_source_invariant :
    (∀ (op : Op) (v : Verex),
      (Op.run op v).source = effective_source_formula (Op.run op v).string (Op.run op v).modifiers
      ∧ (Op.run op v).raw = (Op.run op v).source
      ∧ (Op.run op v).value = (Op.run op v).source)
    ∧ (∀ s : List Char,
      (Verex.from_string s).source
        = effective_source_formula (Verex.from_string s).string (Verex.from_string s).modifiers)
    ∧ Verex.new.source = effective_source_formula Verex.new.string Verex.new.modifiers := by
  refine ⟨fun op v => ⟨?_, rfl, rfl⟩, fun s => rfl, rfl⟩
  cases op <;> first
    | rfl
    | (rename_i expr; cases expr <;> rfl)

/-- C2: `escape` precedes every occurrence of each of the fourteen
metacharacters with a single backslash, leaves every other character
unchanged (each character is treated independently, so the
backslash-first pass order never re-escapes inserted markers), and maps
the empty string to the empty string. -/
theorem c2_escape_metacharacters :
    (∀ s : List Char,
      escape s = s.flatMap (fun c => if c ∈ ESCAPE_CHARS then ['\\', c] else [c]))
    ∧ escape [] = [] := by
  refine ⟨fun s => ?_, rfl⟩
  induction s with
  | nil => rfl
  | cons x xs ih => rw [escape_cons, List.flatMap_cons, ih]

/-- C3: `anything_but(chars)` appends exactly `(?:[^` + `escape(chars)`
+ `]*)` to the builder string and leaves the prefix of the builder
string and the modifiers unchanged. -/
theorem c3_anything_but_appends_negated_class :
    ∀ (v : Verex) (chars : List Char),
      (v.anything_but chars).string
        = v.string ++ ['(', '?', ':', '[', '^'] ++ escape chars ++ [']', '*', ')']
      ∧ (v.anything_but chars).modifiers = v.modifiers := by
  intro v chars
  refine ⟨?_, rfl⟩
  simp [Verex.anything_but, Verex.open_group, Verex.open_class, Verex.close_class,
    Verex.close_group, Verex.add, Verex.update_source_with_modifiers]

/-- C5 counterexample: on a fresh builder, `line_break()` does not
append the eleven-character text `(?:` `\n` `|` `\r\n` `)`; it appends
`(?:` `\n` `|` `(?:` `\r\n` `)` `)`, because `or_find_expr` wraps the
second alternative in its own non-capturing group. -/
theorem c5_line_break_counterexample :
    (Verex.new.line_break).string ≠ ['(', '?', ':', '\\', 'n', '|', '\\', 'r', '\\', 'n', ')']
    ∧ (Verex.new.line_break).string
      = ['(', '?', ':', '\\', 'n', '|', '(', '?', ':', '\\', 'r', '\\', 'n', ')', ')'] := by
  decide

/-- C5 amended: `line_break()` and its alias `br()` append exactly the
text `(?:` `\n` `|` `(?:` `\r\n` `))` to the builder string — the
second raw alternative `\r\n` is wrapped in an inner non-capturing
group by `or_find_expr` — leaving the modifiers unchanged. -/
theorem c5_line_break_appends_grouped_alternative :
    ∀ v : Verex,
      (v.line_break).string
        = v.string ++ ['(', '?', ':', '\\', 'n', '|', '(', '?', ':', '\\', 'r', '\\', 'n', ')', ')']
      ∧ v.br = v.line_break
      ∧ (v.line_break).modifiers = v.modifiers := by
  intro v
  refine ⟨?_, rfl, rfl⟩
  simp [Verex.line_break, Verex.or_find_expr, Verex.find_expr, Verex.find_value, Verex.or,
    Verex.open_group, Verex.close_group, Verex.add, Verex.update_source_with_modifiers]

/-- C6: `search_one_line` has inverted polarity — `enable = true`
removes the `MULTI_LINE` flag and `enable = false` inserts it, and in
both cases the builder string and the `CASE_INSENSITIVE` flag are left
unchanged. -/
theorem c6_search_one_line_inverted_polarity :
    ∀ (v : Verex) (enable : Bool),
      (v.search_one_line enable).string = v.string
      ∧ (v.search_one_line true).modifiers.multi_line = false
      ∧ (v.search_one_line false).modifiers.multi_line = true
      ∧ (v.search_one_line enable).modifiers.case_insensitive = v.modifiers.case_insensitive := by
  intro v enable
  refine ⟨?_, rfl, rfl, ?_⟩ <;> cases enable <;> rfl

/-- C7: every public chaining operation is a total function into
builders (it cannot fail), and `compile()` (with its alias `regex()`)
is the only boundary to the external regex-compiling collaborator: it
forwards the current effective source and returns the collaborator's
result — matcher or error — unchanged. -/
theorem c7_compile_forwards_to_engine :
    ∀ (e r : Type) (engine : List Char → Except e r) (v : Verex),
      v.compile engine = engine v.source
      ∧ v.regex engine = engine v.source
      ∧ ∀ (op : Op) (w : Verex), ∃ u : Verex, Op.run op w = u := by
  intro e r engine v
  exact ⟨rfl, rfl, fun op w => ⟨Op.run op w, rfl⟩⟩

/-- C8: toggling `with_any_case(true)` and then `with_any_case(false)`
on a fresh builder yields the same effective source as a fresh builder
on which neither was called. -/
theorem c8_with_any_case_roundtrip :
    ((Verex.new.with_any_case true).with_any_case false).source = Verex.new.source := by
  decide

/-- C9: seeding from a string is raw and infallible — `from_string`
stores the input verbatim as the builder string (no escaping),
produces effective source `(?:` + input + `)`, leaves the modifier set
empty, `from_str` agrees with it, and the `FromStr` implementation
always returns `Ok` (its error type `Void` is uninhabited). -/
theorem c9_from_string_raw_seeding :
    ∀ s : List Char,
      (Verex.from_string s).string = s
      ∧ Verex.from_str s = Verex.from_string s
      ∧ (Verex.from_string s).source = ['(', '?', ':'] ++ s ++ [')']
      ∧ (Verex.from_string s).modifiers = Modifiers.new
      ∧ from_str_impl s = Except.ok (Verex.from_str s)
      ∧ ∀ v : Void, False := by
  intro s
  exact ⟨rfl, rfl, rfl, rfl, rfl, fun v => nomatch v⟩

/-- C10: the `PartialEq` implementation compares only the builder
strings; in particular a fresh builder and the same builder with the
`CASE_INSENSITIVE` flag set compare equal although their effective
sources differ, so equality is not a congruence for `source()` (nor for
`compile()`, which forwards `source()`). -/
theorem c10_eq_compares_fragment_only :
    (∀ a b : Verex, a.eq b = true ↔ a.string = b.string)
    ∧ Verex.new.eq (Verex.new.with_any_case true) = true
    ∧ Verex.new.source ≠ (Verex.new.with_any_case true).source := by
  refine ⟨fun a b => ?_, by decide, by decide⟩
  simp [Verex.eq]
